import Mathlib

/-!
Shallow embedding of the career-chatbot repository (src/) in Lean 4.

Embedded modules:
  * src/config/settings.py            — the configuration fields the core reads
  * src/notifications/pushover_client.py — PushoverClient
  * src/tools/function_tools.py       — record_user_details, record_unknown_question,
                                        get_tool_definitions, handle_tool_calls
  * src/ai_agent/agent.py             — AIAgent.get_system_prompt, AIAgent.chat,
                                        AIAgent._process_conversation

External effects are made explicit: the model endpoint is an oracle (a list
of responses consumed in order), outbound HTTP posts and notification
invocations are returned as event logs, and Python's in-place list mutation
is modelled twice — once as pure list passing (the primary embedding) and
once over an explicit object store (to reason about aliasing).
-/

namespace CareerChatbot

/-! ## JSON values (the shapes produced by json.loads / consumed by json.dumps) -/

/-- A JSON value as decoded by Python's json module, restricted to the shapes
this program produces and consumes: strings, booleans, objects and arrays.
(Numbers and null never occur in the program's own payloads.) -/
inductive PyVal where
  | str : String → PyVal
  | bool : Bool → PyVal
  | obj : List (String × PyVal) → PyVal
  | arr : List PyVal → PyVal

/-- Escaping a character as Python's json.dumps does for the characters that
occur in this program's payloads. -/
def escapeChar (c : Char) : String :=
  if c = '"' then "\\\""
  else if c = '\\' then "\\\\"
  else if c = '\n' then "\\n"
  else if c = '\t' then "\\t"
  else if c = '\r' then "\\r"
  else String.singleton c

def escapeJson (s : String) : String :=
  String.join (s.data.map escapeChar)

def jsonQuote (s : String) : String :=
  "\"" ++ escapeJson s ++ "\""

mutual

/-- Python json.dumps with its default separators: object fields rendered as
key: value joined by comma-space inside braces, arrays joined by comma-space
inside square brackets. -/
def dumps : PyVal → String
  | .str s => jsonQuote s
  | .bool b => if b then "true" else "false"
  | .obj kvs => "\x7b" ++ dumpsFields kvs ++ "\x7d"
  | .arr vs => "[" ++ dumpsElems vs ++ "]"

def dumpsFields : List (String × PyVal) → String
  | [] => ""
  | [(k, v)] => jsonQuote k ++ ": " ++ dumps v
  | (k, v) :: rest => jsonQuote k ++ ": " ++ dumps v ++ ", " ++ dumpsFields rest

def dumpsElems : List PyVal → String
  | [] => ""
  | [v] => dumps v
  | v :: rest => dumps v ++ ", " ++ dumpsElems rest

end

mutual

/-- Python repr() of a JSON-decoded value: single-quoted strings, True/False,
bracketed lists, braced dicts. (repr's quote-selection edge cases for strings
that themselves contain quotes are not modelled; no theorem depends on them.) -/
def pyRepr : PyVal → String
  | .str s => "'" ++ s ++ "'"
  | .bool b => if b then "True" else "False"
  | .obj kvs => "\x7b" ++ pyReprFields kvs ++ "\x7d"
  | .arr vs => "[" ++ pyReprElems vs ++ "]"

def pyReprFields : List (String × PyVal) → String
  | [] => ""
  | [(k, v)] => "'" ++ k ++ "': " ++ pyRepr v
  | (k, v) :: rest => "'" ++ k ++ "': " ++ pyRepr v ++ ", " ++ pyReprFields rest

def pyReprElems : List PyVal → String
  | [] => ""
  | [v] => pyRepr v
  | v :: rest => pyRepr v ++ ", " ++ pyReprElems rest

end

/-- Python str() of a JSON-decoded value, as an f-string interpolates it:
a string is inserted verbatim, anything else via repr. -/
def pyFormat : PyVal → String
  | .str s => s
  | v => pyRepr v

/-- Substring containment: sub occurs contiguously inside s. -/
def strContains (s sub : String) : Prop := sub.data <:+: s.data

instance (s sub : String) : Decidable (strContains s sub) :=
  inferInstanceAs (Decidable (sub.data <:+: s.data))

/-! ## src/config/settings.py — the configuration fields the core reads.

OPENAI_MODEL, AGENT_NAME have defaults; PUSHOVER_TOKEN and PUSHOVER_USER are
os.getenv results, None when unset. -/

structure Config where
  openai_model : String
  pushover_token : Option String
  pushover_user : Option String
  agent_name : String
deriving DecidableEq

/-- Python truthiness of an Optional[str]: None and the empty string are
falsy, every other string is truthy. -/
def truthyOpt : Option String → Bool
  | none => false
  | some s => s ≠ ""

/-- Python's `a or b` on Optional[str] values. -/
def pyOrOpt (a b : Option String) : Option String :=
  if truthyOpt a then a else b

/-! ## src/notifications/pushover_client.py -/

/-- One outbound HTTP POST as performed by requests.post in
PushoverClient.send_notification. -/
structure PostRequest where
  url : String
  data : List (String × String)
  timeout : Nat
deriving DecidableEq

/-- The outcome of the outbound POST, supplied by the environment:
a 2xx response, a non-2xx response (raise_for_status raises HTTPError,
a RequestException), or a network-level RequestException from requests.post. -/
inductive NetOutcome where
  | success
  | httpError
  | requestFailure (msg : String)
deriving DecidableEq

structure PushoverClient where
  token : Option String
  user : Option String
  api_url : String
deriving DecidableEq

/-- PushoverClient.__init__: each credential falls back to the config value
when the argument is falsy (Python `token or config.pushover_token`). -/
def PushoverClient.init (cfg : Config) (token : Option String := none)
    (user : Option String := none) : PushoverClient :=
  { token := pyOrOpt token cfg.pushover_token
    user := pyOrOpt user cfg.pushover_user
    api_url := "https://api.pushover.net/1/messages.json" }

/-- A notification invocation: the (message, title) pair passed to
PushoverClient.send_notification. -/
structure Notification where
  message : String
  title : Option String
deriving DecidableEq

/-- PushoverClient.send_notification. Returns the boolean result together
with the list of outbound POSTs attempted (empty when credentials are not
configured). If either credential is falsy it returns True without any
outbound request; otherwise it posts the form data with a 10-second timeout,
returning True on 2xx and False when the caught RequestException fires
(network failure or the HTTPError from raise_for_status). -/
def PushoverClient.send_notification (client : PushoverClient) (net : NetOutcome)
    (message : String) (title : Option String := none) : Bool × List PostRequest :=
  if !truthyOpt client.token || !truthyOpt client.user then
    (true, [])
  else
    let data := [("token", client.token.getD ""), ("user", client.user.getD ""),
                 ("message", message)]
    let data := if truthyOpt title then data ++ [("title", title.getD "")] else data
    match net with
    | .success => (true, [⟨client.api_url, data, 10⟩])
    | .httpError => (false, [⟨client.api_url, data, 10⟩])
    | .requestFailure _ => (false, [⟨client.api_url, data, 10⟩])

/-- The (message, title) pair that PushoverClient.send_user_registration
passes to send_notification: the notes segment is appended only when the
notes string is truthy, i.e. non-empty. -/
def PushoverClient.user_registration_notification (name email : String)
    (notes : String := "") : Notification :=
  let message := "New user registration: " ++ name ++ " (" ++ email ++ ")"
  let message := if notes ≠ "" then message ++ " - Notes: " ++ notes else message
  ⟨message, some "User Registration"⟩

/-- PushoverClient.send_user_registration. -/
def PushoverClient.send_user_registration (client : PushoverClient) (net : NetOutcome)
    (name email : String) (notes : String := "") : Bool × List PostRequest :=
  let n := PushoverClient.user_registration_notification name email notes
  client.send_notification net n.message n.title

/-- The (message, title) pair that PushoverClient.send_unknown_question
passes to send_notification. -/
def PushoverClient.unknown_question_notification (question : String) : Notification :=
  ⟨"Unknown question recorded: " ++ question, some "Unknown Question"⟩

/-- PushoverClient.send_unknown_question. -/
def PushoverClient.send_unknown_question (client : PushoverClient) (net : NetOutcome)
    (question : String) : Bool × List PostRequest :=
  let n := PushoverClient.unknown_question_notification question
  client.send_notification net n.message n.title

/-! ## src/tools/function_tools.py — the two callback tools.

A tool returns its JSON result together with the list of notification
invocations it triggered on the module-level notification_client. Delivery
success of the notification is irrelevant to the tool's return value (the
source discards the boolean), so the trigger itself is the recorded event. -/

/-- record_user_details, with the source's defaults for name and notes. -/
def record_user_details (email : String) (name : String := "Name not provided")
    (notes : String := "not provided") : PyVal × List Notification :=
  (.obj [("recorded", .str "ok")],
   [PushoverClient.user_registration_notification name email notes])

/-- record_unknown_question. -/
def record_unknown_question (question : String) : PyVal × List Notification :=
  (.obj [("recorded", .str "ok")],
   [PushoverClient.unknown_question_notification question])

/-! ## src/tools/function_tools.py — tool schemas (get_tool_definitions) -/

/-- The record_user_details_json schema dict built inside get_tool_definitions. -/
def record_user_details_json : PyVal :=
  .obj [("name", .str "record_user_details"),
        ("description", .str "Use this tool to record that a user is interested in being in touch and provided an email address"),
        ("parameters", .obj
          [("type", .str "object"),
           ("properties", .obj
             [("email", .obj [("type", .str "string"),
                              ("description", .str "The email address of this user")]),
              ("name", .obj [("type", .str "string"),
                             ("description", .str "The user's name, if they provided it")]),
              ("notes", .obj [("type", .str "string"),
                              ("description", .str "Any additional information about the conversation that's worth recording to give context")])]),
           ("required", .arr [.str "email"]),
           ("additionalProperties", .bool false)])]

/-- The record_unknown_question_json schema dict built inside get_tool_definitions. -/
def record_unknown_question_json : PyVal :=
  .obj [("name", .str "record_unknown_question"),
        ("description", .str "Always use this tool to record any question that couldn't be answered as you didn't know the answer"),
        ("parameters", .obj
          [("type", .str "object"),
           ("properties", .obj
             [("question", .obj [("type", .str "string"),
                                 ("description", .str "The question that couldn't be answered")])]),
           ("required", .arr [.str "question"]),
           ("additionalProperties", .bool false)])]

/-- The value returned by get_tool_definitions(). -/
def get_tool_definitions : PyVal :=
  .arr [.obj [("type", .str "function"), ("function", record_user_details_json)],
        .obj [("type", .str "function"), ("function", record_unknown_question_json)]]

/-! ## src/tools/function_tools.py — dynamic dispatch (handle_tool_calls).

handle_tool_calls looks the tool name up with globals().get(tool_name): the
namespace it searches is the module's global namespace, which binds not only
the two registered tools but every module-level name — the imported json
module, the typing names Dict, Any and List, notification_client, and the
module's own functions get_tool_definitions and handle_tool_calls — plus the
interpreter-supplied dunder attributes. -/

/-- The names bound in the global namespace of src/tools/function_tools.py. -/
inductive ModuleGlobal where
  | json
  | typingDict
  | typingAny
  | typingList
  | notification_client
  | record_user_details
  | record_unknown_question
  | get_tool_definitions
  | handle_tool_calls
  | dunder
deriving DecidableEq

/-- globals().get on the function_tools module: the imports of lines 8-10,
the four module-level defs, and the interpreter-supplied dunder attributes.
Every other name is unbound. -/
def functionToolsGlobals : String → Option ModuleGlobal
  | "json" => some .json
  | "Dict" => some .typingDict
  | "Any" => some .typingAny
  | "List" => some .typingList
  | "notification_client" => some .notification_client
  | "record_user_details" => some .record_user_details
  | "record_unknown_question" => some .record_unknown_question
  | "get_tool_definitions" => some .get_tool_definitions
  | "handle_tool_calls" => some .handle_tool_calls
  | "__name__" => some .dunder
  | "__doc__" => some .dunder
  | "__package__" => some .dunder
  | "__loader__" => some .dunder
  | "__spec__" => some .dunder
  | "__file__" => some .dunder
  | "__cached__" => some .dunder
  | "__builtins__" => some .dunder
  | _ => none

/-- Keyword-argument binding for record_user_details(email, name=..., notes=...):
an unexpected keyword or a missing email raises TypeError; otherwise the
missing optional parameters take the defaults of the def. -/
def bindRecordUserDetails (args : List (String × PyVal)) :
    Except String (PyVal × PyVal × PyVal) :=
  if args.any (fun kv => kv.1 != "email" && kv.1 != "name" && kv.1 != "notes") then
    .error "TypeError: record_user_details() got an unexpected keyword argument"
  else
    match args.lookup "email" with
    | none => .error "TypeError: record_user_details() missing 1 required positional argument: 'email'"
    | some e => .ok (e, (args.lookup "name").getD (.str "Name not provided"),
                     (args.lookup "notes").getD (.str "not provided"))

/-- Keyword-argument binding for record_unknown_question(question). -/
def bindRecordUnknownQuestion (args : List (String × PyVal)) : Except String PyVal :=
  if args.any (fun kv => kv.1 != "question") then
    .error "TypeError: record_unknown_question() got an unexpected keyword argument"
  else
    match args.lookup "question" with
    | none => .error "TypeError: record_unknown_question() missing 1 required positional argument: 'question'"
    | some q => .ok q

/-- Iterating a JSON-decoded value: booleans are not iterable (TypeError);
a string iterates its characters, a dict its keys, a list its elements.
Returns whether the iteration is empty when it is legal. -/
def jsonIterEmpty : PyVal → Option Bool
  | .bool _ => none
  | .str s => some (s = "")
  | .obj kvs => some kvs.isEmpty
  | .arr vs => some vs.isEmpty

/-- Calling the object bound to a module global with JSON-decoded keyword
arguments: the Python semantics of tool_function(**arguments) for each name
bound in the function_tools namespace. Errors model the exception that the
caller's except-branch turns into an error payload.

The schema declares every tool parameter as a JSON string; a non-string
value is normalized through pyFormat here, where the Python source would
pass the raw value through and format it inside the notification f-string. -/
def callGlobal : ModuleGlobal → List (String × PyVal) →
    Except String PyVal × List Notification
  | .record_user_details, args =>
    (match bindRecordUserDetails args with
     | .error e => (.error e, [])
     | .ok (e, n, t) =>
       let r := record_user_details (pyFormat e) (pyFormat n) (pyFormat t)
       (.ok r.1, r.2))
  | .record_unknown_question, args =>
    (match bindRecordUnknownQuestion args with
     | .error e => (.error e, [])
     | .ok q =>
       let r := record_unknown_question (pyFormat q)
       (.ok r.1, r.2))
  | .get_tool_definitions, args =>
    if args.isEmpty then (.ok get_tool_definitions, [])
    else (.error "TypeError: get_tool_definitions() got an unexpected keyword argument", [])
  | .handle_tool_calls, args =>
    -- handle_tool_calls(tool_calls=...) called on JSON data: binding succeeds
    -- only for the tool_calls keyword; an empty iterable yields [], while a
    -- non-empty one raises when .function is accessed on a JSON element.
    (if args.any (fun kv => kv.1 != "tool_calls") then
       (.error "TypeError: handle_tool_calls() got an unexpected keyword argument", [])
     else match args.lookup "tool_calls" with
       | none => (.error "TypeError: handle_tool_calls() missing 1 required positional argument: 'tool_calls'", [])
       | some v =>
         match jsonIterEmpty v with
         | none => (.error "TypeError: object is not iterable", [])
         | some true => (.ok (.arr []), [])
         | some false => (.error "AttributeError: object has no attribute 'function'", []))
  | .json, _ => (.error "TypeError: 'module' object is not callable", [])
  | .typingDict, _ => (.error "TypeError: cannot instantiate a typing alias", [])
  | .typingAny, _ => (.error "TypeError: Any cannot be instantiated", [])
  | .typingList, _ => (.error "TypeError: cannot instantiate a typing alias", [])
  | .notification_client, _ =>
    (.error "TypeError: 'PushoverClient' object is not callable", [])
  | .dunder, _ => (.error "TypeError: object is not callable", [])

/-! ## src/tools/function_tools.py — handle_tool_calls -/

/-- One tool call as delivered by the model endpoint: tool_call.id,
tool_call.function.name, and tool_call.function.arguments already decoded by
json.loads into a keyword-argument object. -/
structure ToolFunction where
  name : String
  arguments : List (String × PyVal)

structure ToolCall where
  id : String
  function : ToolFunction

/-- The dict appended to results for each call:
role "tool", json.dumps of the result, and the echoed call id. -/
structure ToolMessage where
  role : String
  content : String
  tool_call_id : String
deriving DecidableEq

/-- The body of the for-loop of handle_tool_calls for one call: look the name
up in the module globals; call it when bound, turning a raised exception into
an error payload; produce the not-found error payload when unbound. -/
def dispatchToolCall (tc : ToolCall) : PyVal × List Notification :=
  match functionToolsGlobals tc.function.name with
  | some g =>
    (match callGlobal g tc.function.arguments with
     | (.ok v, ns) => (v, ns)
     | (.error e, ns) => (.obj [("error", .str e)], ns))
  | none => (.obj [("error", .str ("Tool " ++ tc.function.name ++ " not found"))], [])

/-- handle_tool_calls: one tool-result message per call, in call order, each
carrying json.dumps of the call's result and the call's id. -/
def handle_tool_calls : List ToolCall → List ToolMessage × List Notification
  | [] => ([], [])
  | tc :: rest =>
    let r := dispatchToolCall tc
    let next := handle_tool_calls rest
    (⟨"tool", dumps r.1, tc.id⟩ :: next.1, r.2 ++ next.2)

/-! ## src/ai_agent/agent.py — AIAgent.

The agent state that feeds the system prompt is exactly the configured name,
the summary text loaded from the summary file, and the LinkedIn profile text
extracted from the PDF (both loaded once at startup, possibly degraded to
empty strings). self.tools is always the value of get_tool_definitions(). -/

structure AIAgent where
  name : String
  summary : String
  linkedin_content : String

/-- AIAgent.get_system_prompt: the persona paragraph, the summary and
LinkedIn sections, and the closing line — a function of the agent's name,
summary and linkedin_content fields only. -/
def AIAgent.get_system_prompt (agent : AIAgent) : String :=
  let system_prompt :=
    "You are acting as " ++ agent.name ++ ". You are answering questions on " ++
    agent.name ++ "'s website, particularly questions related to " ++ agent.name ++
    "'s career, background, skills and experience. " ++
    "Your responsibility is to represent " ++ agent.name ++
    " for interactions on the website as faithfully as possible. " ++
    "You are given a summary of " ++ agent.name ++
    "'s background and LinkedIn profile which you can use to answer questions. " ++
    "Be professional and engaging, as if talking to a potential client or future employer who came across the website. " ++
    "If you don't know the answer to any question, use your record_unknown_question tool to record the question that you couldn't answer, even if it's about something trivial or unrelated to career. " ++
    "If the user is engaging in discussion, try to steer them towards getting in touch via email; ask for their email and record it using your record_user_details tool."
  let system_prompt := system_prompt ++
    "\n\n## Summary:\n" ++ agent.summary ++ "\n\n## LinkedIn Profile:\n" ++
    agent.linkedin_content ++ "\n\n"
  system_prompt ++
    "With this context, please chat with the user, always staying in character as " ++
    agent.name ++ "."

/-- A history entry or freshly built message dict: role and content. -/
structure Turn where
  role : String
  content : String
deriving DecidableEq

/-- The message object of a tool-calls response
(response.choices[0].message): its content and its tool_calls list. -/
structure AssistantMessage where
  content : Option String
  tool_calls : List ToolCall

/-- A member of the messages list: the plain role/content dicts the agent
builds, the assistant message object appended on a tool-calls response, and
the tool-result dicts returned by handle_tool_calls. -/
inductive Msg where
  | plain (t : Turn)
  | assistant (m : AssistantMessage)
  | toolResult (t : ToolMessage)

/-- One response of the model endpoint, the oracle for one
chat.completions.create call: a finish_reason "tool_calls" response carrying
an assistant message, any other finish_reason carrying the message content
returned to the caller, or the call raising an exception. -/
inductive ModelResponse where
  | toolCalls (message : AssistantMessage)
  | final (content : String)
  | raised (err : String)

/-- One outbound chat.completions.create call: the model identifier, the
messages list, and the tool schema list, exactly the arguments of the call
in _process_conversation. -/
structure Request where
  model : String
  messages : List Msg
  tools : PyVal

/-- The result of AIAgent._process_conversation: the string returned to the
caller (a final answer or the fixed apology), or stillLooping when the
supplied oracle ran out while the while-loop was still going — the loop has
no iteration bound of its own and only stops on a non-tool-calls response or
an exception. -/
inductive ChatOutcome where
  | returns (s : String)
  | stillLooping
deriving DecidableEq

/-- The fixed apology string returned from the except-branch of
_process_conversation. -/
def apologyString : String :=
  "I apologize, but I encountered an error processing your request. Please try again."

/-- AIAgent._process_conversation, with the while-loop unrolled as recursion
on the oracle of endpoint responses. Each loop iteration first issues one
outbound request (logged even when the oracle has no response left for it:
the loop body has sent the request and is blocked on the answer). On a
tool-calls response it appends the assistant message followed by the
tool-result messages of handle_tool_calls and iterates; on any other
response it stops and returns that response's message content; when the
create call raises, the except-branch returns the apology string. Also
returns the notification invocations triggered by dispatched tools. -/
def processConversation (model : String) :
    List ModelResponse → List Msg → ChatOutcome × List Request × List Notification
  | [], msgs => (.stillLooping, [⟨model, msgs, get_tool_definitions⟩], [])
  | .raised _ :: _, msgs =>
    (.returns apologyString, [⟨model, msgs, get_tool_definitions⟩], [])
  | .final c :: _, msgs =>
    (.returns c, [⟨model, msgs, get_tool_definitions⟩], [])
  | .toolCalls m :: rest, msgs =>
    let tr := handle_tool_calls m.tool_calls
    let next := processConversation model rest
      (msgs ++ [Msg.assistant m] ++ tr.1.map Msg.toolResult)
    (next.1, ⟨model, msgs, get_tool_definitions⟩ :: next.2.1, tr.2 ++ next.2.2)

/-- AIAgent.chat: build the fresh messages list
[system prompt] + history + [user message] and hand it to
_process_conversation. The model identifier comes from config.openai_model. -/
def AIAgent.chat (agent : AIAgent) (model : String) (message : String)
    (history : List Turn) (oracle : List ModelResponse) :
    ChatOutcome × List Request × List Notification :=
  let messages :=
    [Msg.plain ⟨"system", agent.get_system_prompt⟩] ++ history.map Msg.plain ++
    [Msg.plain ⟨"user", message⟩]
  processConversation model oracle messages

/-! ## AIAgent.chat over an explicit object store.

Python lists are heap objects mutated in place; `[system] + history + [user]`
allocates a fresh list, and the append/extend calls of the loop mutate that
fresh object, never the caller's history object. To state this, the same two
functions are embedded a second time over a store of list objects addressed
by references. -/

abbrev Ref := Nat

/-- The heap of list objects: index = object identity. -/
abbrev Store := List (List Msg)

/-- Allocate a fresh list object holding xs; its reference is the previous
store size, distinct from every existing reference. -/
def Store.alloc (st : Store) (xs : List Msg) : Ref × Store :=
  (st.length, st ++ [xs])

/-- Read the list object behind a reference. -/
def Store.read (st : Store) (r : Ref) : List Msg :=
  (st.get? r).getD []

/-- list.append / list.extend: mutate the object behind r in place. -/
def Store.extend (st : Store) (r : Ref) (xs : List Msg) : Store :=
  st.set r (Store.read st r ++ xs)

/-- AIAgent._process_conversation over the store: the loop mutates only the
messages object it was given. -/
def processConversationImp (model : String) :
    List ModelResponse → Store → Ref → ChatOutcome × Store
  | [], st, _ => (.stillLooping, st)
  | .raised _ :: _, st, _ => (.returns apologyString, st)
  | .final c :: _, st, _ => (.returns c, st)
  | .toolCalls m :: rest, st, msgsRef =>
    let tr := handle_tool_calls m.tool_calls
    let st := Store.extend st msgsRef ([Msg.assistant m] ++ tr.1.map Msg.toolResult)
    processConversationImp model rest st msgsRef

/-- AIAgent.chat over the store: reads the caller's history object, allocates
the fresh messages object `[system] + history + [user]`, and runs the loop on
the fresh object's reference. -/
def AIAgent.chatImp (agent : AIAgent) (model : String) (message : String)
    (st : Store) (historyRef : Ref) (oracle : List ModelResponse) :
    ChatOutcome × Store :=
  let history := Store.read st historyRef
  let fresh := Store.alloc st
    ([Msg.plain ⟨"system", agent.get_system_prompt⟩] ++ history ++
     [Msg.plain ⟨"user", message⟩])
  processConversationImp model oracle fresh.2 fresh.1

/-! ## Helper lemmas -/

/-- Every run of the loop logs its first outbound request with exactly the
messages list it was handed. -/
theorem processConversation_head_request (model : String)
    (oracle : List ModelResponse) (msgs : List Msg) :
    ((processConversation model oracle msgs).2.1).head? =
      some ⟨model, msgs, get_tool_definitions⟩ := by
  cases oracle with
  | nil => rfl
  | cons r rest => cases r <;> rfl

/-- handle_tool_calls produces exactly one result per call. -/
theorem handle_tool_calls_length (cs : List ToolCall) :
    ((handle_tool_calls cs).1).length = cs.length := by
  induction cs with
  | nil => rfl
  | cons c rest ih => simpa [handle_tool_calls] using ih

/-- The tool-result messages echo the call identifiers in call order. -/
theorem handle_tool_calls_ids (cs : List ToolCall) :
    ((handle_tool_calls cs).1).map (fun r => r.tool_call_id) =
      cs.map (fun c => c.id) := by
  induction cs with
  | nil => rfl
  | cons c rest ih => simpa [handle_tool_calls] using ih

/-! ## Claims -/

/-- Claim C1: for every history H and user message M, chat issues its first
outbound model request with message list exactly
[system turn] + H + [user turn with M], the system turn's content being
get_system_prompt of the agent — a function of exactly the configured name,
the loaded summary text and the loaded profile text, which are the only
fields of AIAgent. -/
theorem C1_chat_first_request (agent : AIAgent) (model M : String)
    (H : List Turn) (oracle : List ModelResponse) :
    ((AIAgent.chat agent model M H oracle).2.1).head? =
      some ⟨model,
        [Msg.plain ⟨"system", agent.get_system_prompt⟩] ++ H.map Msg.plain ++
          [Msg.plain ⟨"user", M⟩],
        get_tool_definitions⟩ := by
  unfold AIAgent.chat
  exact processConversation_head_request ..

/-- Claim C2: in a loop iteration whose response requests tool calls, the
request log is the current request followed by the log of the continuation;
the continuation's first request (the one additional outbound request of the
iteration) carries the previous messages verbatim as a prefix, extended by
exactly one assistant turn and then one tool-result turn per requested call,
the results echoing the call ids in the order the calls were given; the list
grows by exactly 1 + number of calls. -/
theorem C2_tool_call_iteration (model : String) (m : AssistantMessage)
    (rest : List ModelResponse) (msgs : List Msg) :
    (processConversation model (ModelResponse.toolCalls m :: rest) msgs).2.1 =
        ⟨model, msgs, get_tool_definitions⟩ ::
          (processConversation model rest
            (msgs ++ [Msg.assistant m] ++
              ((handle_tool_calls m.tool_calls).1).map Msg.toolResult)).2.1
      ∧ ((processConversation model rest
            (msgs ++ [Msg.assistant m] ++
              ((handle_tool_calls m.tool_calls).1).map Msg.toolResult)).2.1).head? =
          some ⟨model,
            msgs ++ [Msg.assistant m] ++
              ((handle_tool_calls m.tool_calls).1).map Msg.toolResult,
            get_tool_definitions⟩
      ∧ ((handle_tool_calls m.tool_calls).1).length = m.tool_calls.length
      ∧ ((handle_tool_calls m.tool_calls).1).map (fun r => r.tool_call_id) =
          m.tool_calls.map (fun c => c.id)
      ∧ (msgs ++ [Msg.assistant m] ++
          ((handle_tool_calls m.tool_calls).1).map Msg.toolResult).length =
          msgs.length + 1 + m.tool_calls.length := by
  refine ⟨rfl, processConversation_head_request .., handle_tool_calls_length _,
    handle_tool_calls_ids _, ?_⟩
  simp [handle_tool_calls_length]
  omega

/-- Claim C6: when the endpoint's first response is a plain answer (finish
reason is not tool_calls), chat returns that response's message content
unchanged, performs exactly one outbound request in total, and triggers no
tool notification. -/
theorem C6_first_response_plain (agent : AIAgent) (model M c : String)
    (H : List Turn) (rest : List ModelResponse) :
    AIAgent.chat agent model M H (ModelResponse.final c :: rest) =
      (ChatOutcome.returns c,
       [⟨model,
         [Msg.plain ⟨"system", agent.get_system_prompt⟩] ++ H.map Msg.plain ++
           [Msg.plain ⟨"user", M⟩],
         get_tool_definitions⟩],
       []) := rfl

/-- Consuming a run of consecutive tool-call responses leaves the loop
running on the remaining oracle with some extended messages list, having
logged one request per consumed response. -/
theorem processConversation_tools_prefix (model : String)
    (tail : List ModelResponse) :
    ∀ (pre : List ModelResponse) (msgs : List Msg),
      (∀ r ∈ pre, ∃ m, r = ModelResponse.toolCalls m) →
      ∃ msgs' : List Msg,
        (processConversation model (pre ++ tail) msgs).1 =
            (processConversation model tail msgs').1
        ∧ (processConversation model (pre ++ tail) msgs).2.1.length =
            pre.length + (processConversation model tail msgs').2.1.length := by
  intro pre
  induction pre with
  | nil => exact fun msgs _ => ⟨msgs, rfl, by simp⟩
  | cons r pre ih =>
    intro msgs h
    obtain ⟨m, rfl⟩ := h r (List.mem_cons_self r pre)
    obtain ⟨msgs', h1, h2⟩ :=
      ih (msgs ++ [Msg.assistant m] ++
          ((handle_tool_calls m.tool_calls).1).map Msg.toolResult)
        (fun r hr => h r (List.mem_cons_of_mem _ hr))
    refine ⟨msgs', h1, ?_⟩
    have hstep :
        (processConversation model
            ((ModelResponse.toolCalls m :: pre) ++ tail) msgs).2.1 =
          ⟨model, msgs, get_tool_definitions⟩ ::
            (processConversation model (pre ++ tail)
              (msgs ++ [Msg.assistant m] ++
                ((handle_tool_calls m.tool_calls).1).map Msg.toolResult)).2.1 := rfl
    rw [hstep, List.length_cons, h2, List.length_cons]
    omega

/-- Claim C5: whenever the model-endpoint interaction of some loop iteration
raises (after any run of tool-call iterations), chat aborts the loop and
returns the fixed apology string; the embedding is a total function, so the
failure never escapes to the caller as an exception. -/
theorem C5_endpoint_failure_apology (agent : AIAgent) (model M : String)
    (H : List Turn) (pre : List ModelResponse) (e : String)
    (rest : List ModelResponse)
    (h : ∀ r ∈ pre, ∃ m, r = ModelResponse.toolCalls m) :
    (AIAgent.chat agent model M H
        (pre ++ ModelResponse.raised e :: rest)).1 =
      ChatOutcome.returns apologyString := by
  obtain ⟨msgs', h1, _⟩ :=
    processConversation_tools_prefix model (ModelResponse.raised e :: rest) pre
      ([Msg.plain ⟨"system", agent.get_system_prompt⟩] ++ H.map Msg.plain ++
        [Msg.plain ⟨"user", M⟩]) h
  show (processConversation model (pre ++ ModelResponse.raised e :: rest) _).1 = _
  rw [h1]
  rfl

/-- Witness for C5 at a concrete input: one tool-call iteration, then the
endpoint raises; chat returns the apology string. -/
theorem C5_endpoint_failure_apology_witness :
    (AIAgent.chat ⟨"Agent", "sum", "li"⟩ "gpt-4o-mini" "hi" []
        ([ModelResponse.toolCalls ⟨none, []⟩] ++
          ModelResponse.raised "boom" :: [])).1 =
      ChatOutcome.returns apologyString :=
  C5_endpoint_failure_apology ⟨"Agent", "sum", "li"⟩ "gpt-4o-mini" "hi" []
    [ModelResponse.toolCalls ⟨none, []⟩] "boom" []
    (by
      intro r hr
      rw [List.mem_singleton] at hr
      exact ⟨⟨none, []⟩, hr⟩)

/-- Claim C7: after finitely many consecutive tool-call responses followed by
a plain answer, chat terminates and returns that answer, having issued one
request per tool-call iteration plus the final one; and the loop has no
iteration bound of its own — for every number of consecutive tool-call
responses the loop consumes all of them and is still running, so an endpoint
that perpetually requests tools makes chat loop without terminating. -/
theorem C7_terminates_iff_endpoint_stops :
    (∀ (agent : AIAgent) (model M : String) (H : List Turn)
        (pre : List ModelResponse) (a : String) (rest : List ModelResponse),
      (∀ r ∈ pre, ∃ m, r = ModelResponse.toolCalls m) →
      (AIAgent.chat agent model M H (pre ++ ModelResponse.final a :: rest)).1 =
          ChatOutcome.returns a
        ∧ (AIAgent.chat agent model M H
            (pre ++ ModelResponse.final a :: rest)).2.1.length = pre.length + 1)
    ∧ (∀ (agent : AIAgent) (model M : String) (H : List Turn)
        (pre : List ModelResponse),
      (∀ r ∈ pre, ∃ m, r = ModelResponse.toolCalls m) →
      (AIAgent.chat agent model M H pre).1 = ChatOutcome.stillLooping
        ∧ (AIAgent.chat agent model M H pre).2.1.length = pre.length + 1) := by
  constructor
  · intro agent model M H pre a rest h
    obtain ⟨msgs', h1, h2⟩ :=
      processConversation_tools_prefix model (ModelResponse.final a :: rest) pre
        ([Msg.plain ⟨"system", agent.get_system_prompt⟩] ++ H.map Msg.plain ++
          [Msg.plain ⟨"user", M⟩]) h
    constructor
    · show (processConversation model (pre ++ ModelResponse.final a :: rest) _).1 = _
      rw [h1]
      rfl
    · show (processConversation model
          (pre ++ ModelResponse.final a :: rest) _).2.1.length = _
      rw [h2]
      rfl
  · intro agent model M H pre h
    obtain ⟨msgs', h1, h2⟩ :=
      processConversation_tools_prefix model [] pre
        ([Msg.plain ⟨"system", agent.get_system_prompt⟩] ++ H.map Msg.plain ++
          [Msg.plain ⟨"user", M⟩]) h
    rw [List.append_nil] at h1 h2
    constructor
    · show (processConversation model pre _).1 = _
      rw [h1]
      rfl
    · show (processConversation model pre _).2.1.length = _
      rw [h2]
      rfl

/-- Witness for C7 at concrete inputs: one tool-call response then a plain
answer terminates with that answer after two requests; a single tool-call
response with nothing after it leaves the loop still running. -/
theorem C7_terminates_iff_endpoint_stops_witness :
    ((AIAgent.chat ⟨"Agent", "sum", "li"⟩ "gpt-4o-mini" "hi" []
        ([ModelResponse.toolCalls ⟨none, []⟩] ++
          ModelResponse.final "done" :: [])).1 = ChatOutcome.returns "done")
    ∧ ((AIAgent.chat ⟨"Agent", "sum", "li"⟩ "gpt-4o-mini" "hi" []
        [ModelResponse.toolCalls ⟨none, []⟩]).1 = ChatOutcome.stillLooping) := by
  have hpre : ∀ r ∈ [ModelResponse.toolCalls (⟨none, []⟩ : AssistantMessage)],
      ∃ m, r = ModelResponse.toolCalls m := by
    intro r hr
    rw [List.mem_singleton] at hr
    exact ⟨⟨none, []⟩, hr⟩
  exact ⟨(C7_terminates_iff_endpoint_stops.1 ⟨"Agent", "sum", "li"⟩ "gpt-4o-mini"
      "hi" [] [ModelResponse.toolCalls ⟨none, []⟩] "done" [] hpre).1,
    (C7_terminates_iff_endpoint_stops.2 ⟨"Agent", "sum", "li"⟩ "gpt-4o-mini"
      "hi" [] [ModelResponse.toolCalls ⟨none, []⟩] hpre).1⟩

/-- Claim C8: send_notification with either credential unconfigured (falsy:
unset or empty) returns True and performs no outbound request; with both
credentials configured it performs exactly one outbound request and a
network failure or non-2xx response is caught and reported as False (and a
2xx response as True) — the embedding is a total function, never an
exception. -/
theorem C8_send_notification_contract (client : PushoverClient)
    (net : NetOutcome) (message : String) (title : Option String) :
    ((truthyOpt client.token = false ∨ truthyOpt client.user = false) →
      client.send_notification net message title = (true, []))
    ∧ (truthyOpt client.token = true → truthyOpt client.user = true →
        (client.send_notification net message title).2.length = 1
        ∧ (net ≠ NetOutcome.success →
            (client.send_notification net message title).1 = false)
        ∧ (net = NetOutcome.success →
            (client.send_notification net message title).1 = true)) := by
  constructor
  · intro h
    unfold PushoverClient.send_notification
    rcases h with h | h <;> simp [h]
  · intro ht hu
    unfold PushoverClient.send_notification
    cases net <;> simp [ht, hu]

/-- Witness for C8 at concrete inputs: an unconfigured token yields (True,
no request) even on a would-be network failure; configured credentials with
a non-2xx response yield False. -/
theorem C8_send_notification_contract_witness :
    (PushoverClient.send_notification ⟨none, some "u", "url"⟩
        (NetOutcome.requestFailure "net down") "m" none = (true, []))
    ∧ ((PushoverClient.send_notification ⟨some "t", some "u", "url"⟩
        NetOutcome.httpError "m" (some "T")).1 = false) :=
  ⟨(C8_send_notification_contract ⟨none, some "u", "url"⟩
      (NetOutcome.requestFailure "net down") "m" none).1 (Or.inl (by decide)),
   ((C8_send_notification_contract ⟨some "t", some "u", "url"⟩
      NetOutcome.httpError "m" (some "T")).2 (by decide) (by decide)).2.1
     (by decide)⟩

/-- Claim C9: record_unknown_question returns the payload recorded: ok and
triggers one Unknown Question notification whose message contains the
literal question text. -/
theorem C9_record_unknown_question (q : String) :
    record_unknown_question q =
      (PyVal.obj [("recorded", PyVal.str "ok")],
       [⟨"Unknown question recorded: " ++ q, some "Unknown Question"⟩])
    ∧ strContains ("Unknown question recorded: " ++ q) q :=
  ⟨rfl, ⟨"Unknown question recorded: ".data, [], by simp⟩⟩

/-- Counterexample to claim C3 as stated: record_user_details with only the
email "a@b.com" (name and notes omitted) triggers a notification whose
message DOES carry a "Notes:" suffix — the omitted notes argument defaults
to the non-empty string "not provided", so send_user_registration appends
" - Notes: not provided". -/
theorem C3_counterexample :
    (record_user_details "a@b.com").2 =
      [⟨"New user registration: Name not provided (a@b.com) - Notes: not provided",
        some "User Registration"⟩]
    ∧ strContains
        "New user registration: Name not provided (a@b.com) - Notes: not provided"
        "Notes:" := by
  constructor
  · decide
  · decide

/-- Claim C3 amended: record_user_details with email "a@b.com" and name and
notes omitted returns recorded: ok and triggers a notification whose message
contains "a@b.com" and "Name not provided" AND the suffix
" - Notes: not provided" (the default notes value is the non-empty string
"not provided"); in general the notes portion is appended to the
notification message exactly when the notes value is non-empty. -/
theorem C3_record_contact_amended :
    (record_user_details "a@b.com").1 = PyVal.obj [("recorded", PyVal.str "ok")]
    ∧ (record_user_details "a@b.com").2 =
        [⟨"New user registration: Name not provided (a@b.com) - Notes: not provided",
          some "User Registration"⟩]
    ∧ strContains
        "New user registration: Name not provided (a@b.com) - Notes: not provided"
        "a@b.com"
    ∧ strContains
        "New user registration: Name not provided (a@b.com) - Notes: not provided"
        "Name not provided"
    ∧ strContains
        "New user registration: Name not provided (a@b.com) - Notes: not provided"
        " - Notes: not provided"
    ∧ (∀ name email notes : String, notes ≠ "" →
        (PushoverClient.user_registration_notification name email notes).message =
          "New user registration: " ++ name ++ " (" ++ email ++ ")" ++
            " - Notes: " ++ notes)
    ∧ (∀ name email : String,
        (PushoverClient.user_registration_notification name email "").message =
          "New user registration: " ++ name ++ " (" ++ email ++ ")") := by
  refine ⟨rfl, by decide, by decide, by decide, by decide, ?_, ?_⟩
  · intro name email notes h
    unfold PushoverClient.user_registration_notification
    simp [h]
  · intro name email
    unfold PushoverClient.user_registration_notification
    simp

/-- Witness for C3 amended at a concrete input: non-empty notes produce the
Notes suffix. -/
theorem C3_record_contact_amended_witness :
    (PushoverClient.user_registration_notification "Jane" "j@x.org"
        "wants a call").message =
      "New user registration: " ++ "Jane" ++ " (" ++ "j@x.org" ++ ")" ++
        " - Notes: " ++ "wants a call" :=
  C3_record_contact_amended.2.2.2.2.2.1 "Jane" "j@x.org" "wants a call"
    (by decide)

/-- Counterexample to claim C4 as stated: "get_tool_definitions" is not one
of the two registered tool operations, yet dispatching it does NOT return
the not-found error payload — globals().get finds the module-level function
get_tool_definitions, calls it, and the tool result carries the JSON of the
tool schema list instead. -/
theorem C4_counterexample :
    (handle_tool_calls [⟨"call_1", ⟨"get_tool_definitions", []⟩⟩]).1 =
      [⟨"tool", dumps get_tool_definitions, "call_1"⟩]
    ∧ dumps get_tool_definitions ≠
        dumps (PyVal.obj
          [("error", PyVal.str "Tool get_tool_definitions not found")]) := by
  refine ⟨rfl, ?_⟩
  intro hcontra
  have hd : (dumps get_tool_definitions).data.head? =
      (dumps (PyVal.obj
        [("error", PyVal.str "Tool get_tool_definitions not found")])).data.head? := by
    rw [hcontra]
  have hA : (dumps get_tool_definitions).data.head? = some '[' := by
    rw [show dumps get_tool_definitions =
      "[" ++ dumpsElems [PyVal.obj [("type", PyVal.str "function"),
          ("function", record_user_details_json)],
        PyVal.obj [("type", PyVal.str "function"),
          ("function", record_unknown_question_json)]] ++ "]" from rfl]
    rw [String.data_append, String.data_append]
    rfl
  have hO : (dumps (PyVal.obj
      [("error", PyVal.str "Tool get_tool_definitions not found")])).data.head? =
      some '\x7b' := by
    rw [show dumps (PyVal.obj
        [("error", PyVal.str "Tool get_tool_definitions not found")]) =
      "\x7b" ++ dumpsFields
        [("error", PyVal.str "Tool get_tool_definitions not found")] ++
        "\x7d" from rfl]
    rw [String.data_append, String.data_append]
    rfl
  rw [hA, hO] at hd
  exact absurd (Option.some.inj hd) (by decide)

/-- Claim C4 amended: for every tool name that is not bound in the global
namespace of the tools module (in particular any name other than the two
registered operations, the module's other functions, its imports and the
interpreter dunders), dispatching that name with any argument object returns
a tool result whose content is the JSON of the error payload
Tool name not found, carrying the original call identifier, and triggers no
notification; the dispatch is a total function, so it never raises. Names
that are bound in the namespace without being registered operations (such as
get_tool_definitions) are instead called, or produce the caught-exception
error payload. -/
theorem C4_unregistered_name_amended (name : String)
    (args : List (String × PyVal)) (id : String)
    (h : functionToolsGlobals name = none) :
    handle_tool_calls [⟨id, ⟨name, args⟩⟩] =
      ([⟨"tool",
         dumps (PyVal.obj [("error", PyVal.str ("Tool " ++ name ++ " not found"))]),
         id⟩], []) := by
  simp [handle_tool_calls, dispatchToolCall, h]

/-- Witness for C4 amended at a concrete input: the unbound name
"summarize_resume" yields the not-found payload with the original call id. -/
theorem C4_unregistered_name_amended_witness :
    functionToolsGlobals "summarize_resume" = none
    ∧ handle_tool_calls [⟨"call_9", ⟨"summarize_resume", []⟩⟩] =
        ([⟨"tool",
           dumps (PyVal.obj
             [("error", PyVal.str ("Tool " ++ "summarize_resume" ++ " not found"))]),
           "call_9"⟩], []) :=
  ⟨rfl, C4_unregistered_name_amended "summarize_resume" [] "call_9" rfl⟩

/-- Mutating one list object leaves every other object unchanged. -/
theorem Store.read_extend_ne (st : Store) (r h : Ref) (xs : List Msg)
    (hne : r ≠ h) :
    Store.read (Store.extend st r xs) h = Store.read st h := by
  unfold Store.read Store.extend
  rw [List.get?_set_ne _ _ hne]

/-- The conversation loop mutates only the messages object it was given. -/
theorem processConversationImp_frame (model : String)
    (oracle : List ModelResponse) :
    ∀ (st : Store) (r h : Ref), r ≠ h →
      Store.read (processConversationImp model oracle st r).2 h =
        Store.read st h := by
  induction oracle with
  | nil => intro st r h _; rfl
  | cons resp rest ih =>
    intro st r h hne
    cases resp with
    | toolCalls m =>
      show Store.read
        (processConversationImp model rest (Store.extend st r _) r).2 h = _
      rw [ih _ _ _ hne, Store.read_extend_ne _ _ _ _ hne]
    | final c => rfl
    | raised e => rfl

/-- Claim C10: chat leaves the caller-supplied history object unchanged —
the system, user, assistant tool-request and tool-result turns are appended
to the freshly allocated messages object, never to the history object. -/
theorem C10_history_not_mutated (agent : AIAgent) (model M : String)
    (st : Store) (historyRef : Ref) (oracle : List ModelResponse)
    (h : historyRef < st.length) :
    Store.read (AIAgent.chatImp agent model M st historyRef oracle).2
        historyRef =
      Store.read st historyRef := by
  have hne : st.length ≠ historyRef := (Nat.ne_of_lt h).symm
  show Store.read
      (processConversationImp model oracle
        (st ++ [[Msg.plain ⟨"system", agent.get_system_prompt⟩] ++
          Store.read st historyRef ++ [Msg.plain ⟨"user", M⟩]])
        st.length).2 historyRef = _
  rw [processConversationImp_frame model oracle _ _ _ hne]
  unfold Store.read
  rw [List.get?_append h]

/-- Witness for C10 at a concrete input: a one-object store whose history
object is read back unchanged after a tool-call iteration and a final
answer. -/
theorem C10_history_not_mutated_witness :
    Store.read
      (AIAgent.chatImp ⟨"Agent", "sum", "li"⟩ "gpt-4o-mini" "hi"
        [[Msg.plain ⟨"user", "earlier"⟩]] 0
        [ModelResponse.toolCalls ⟨none, []⟩, ModelResponse.final "done"]).2 0 =
      Store.read [[Msg.plain ⟨"user", "earlier"⟩]] 0 :=
  C10_history_not_mutated ⟨"Agent", "sum", "li"⟩ "gpt-4o-mini" "hi"
    [[Msg.plain ⟨"user", "earlier"⟩]] 0
    [ModelResponse.toolCalls ⟨none, []⟩, ModelResponse.final "done"]
    (by decide)
